import Mathlib

/-!
Verification of the air-quality geospatial query service (src/app/main.py,
src/app/config.py) against its specification.

The datastore is modelled as explicit lists of rows of the two tables
(measurements, stations).  Each SQL statement executed by the service is
given its relational semantics as a Lean function over those lists:
WHERE is List.filter, ORDER BY is insertion sort by the order key,
DISTINCT ON (k) with ORDER BY k, ts DESC is first-occurrence deduplication
of the timestamp-descending sort, JOIN is a filtered product, and
LIMIT/OFFSET is take after drop.  Numeric SQL values (value, lat, lon)
are carried opaquely as Int since the service never computes with them,
only passes them through; timestamps are Int instants counted in seconds
(one hour = 3600).  Row order inside timestamp ties is unspecified in SQL;
the model fixes one stable order, and all stated properties are
tie-order-independent.
-/

namespace AirQuality

/-- A row of the measurements table (column order as in the SELECT lists of
src/app/main.py: station_id, pollutant, value, unit, city, location_name,
lat, lon, country, ts, source). -/
structure MeasRow where
  station_id : String
  pollutant : String
  value : Option Int
  unit : Option String
  city : Option String
  location_name : Option String
  lat : Option Int
  lon : Option Int
  country : Option String
  ts : Int
  source : Option String
deriving DecidableEq, Repr

/-- A row of the stations table (station_id, source, country, city,
location_name, lat, lon). -/
structure StationRow where
  station_id : String
  source : Option String
  country : Option String
  city : Option String
  location_name : Option String
  lat : Option Int
  lon : Option Int
deriving DecidableEq, Repr

/-- The TimePoint response model of main.py (a Measurement without
lat/lon). -/
structure TimePoint where
  station_id : String
  pollutant : String
  value : Option Int
  unit : Option String
  country : Option String
  city : Option String
  location_name : Option String
  timestamp : Int
  source : Option String
deriving DecidableEq, Repr

/-- An HTTPException as raised by main.py. -/
structure HttpError where
  status_code : Nat
  detail : String
deriving DecidableEq, Repr

/-- Python truthiness of an Optional[str] parameter: the tests
if station_id: / if country: / if pollutant: in main.py treat both None
and the empty string as absent. -/
def strPresent : Option String → Bool
  | none => false
  | some s => !(s == "")

/-- The WHERE predicate assembled by list_measurements (lines 81-93):
one parameterized equality filter per supplied (truthy) parameter, AND-ed.
A NULL country column never equals a supplied country value, matching SQL
equality on NULL. -/
def rowMatches (station_id country pollutant : Option String) (r : MeasRow) : Bool :=
  (if strPresent station_id then r.station_id == station_id.getD "" else true) &&
  (if strPresent country then r.country == some (country.getD "") else true) &&
  (if strPresent pollutant then r.pollutant == pollutant.getD "" else true)

/-- ORDER BY ts DESC as a relation on measurement rows. -/
def tsGe (a b : MeasRow) : Prop := b.ts ≤ a.ts

instance : DecidableRel tsGe := fun a b => inferInstanceAs (Decidable (b.ts ≤ a.ts))

instance : IsTotal MeasRow tsGe := ⟨fun a b => le_total b.ts a.ts⟩

instance : IsTrans MeasRow tsGe := ⟨fun _ _ _ h1 h2 => le_trans h2 h1⟩

/-- ORDER BY ts (ascending) as a relation on measurement rows. -/
def tsLe (a b : MeasRow) : Prop := a.ts ≤ b.ts

instance : DecidableRel tsLe := fun a b => inferInstanceAs (Decidable (a.ts ≤ b.ts))

instance : IsTotal MeasRow tsLe := ⟨fun a b => le_total a.ts b.ts⟩

instance : IsTrans MeasRow tsLe := ⟨fun _ _ _ h1 h2 => le_trans h1 h2⟩

/-- ORDER BY station_id, pollutant, ts DESC: the sort order of the
DISTINCT ON (station_id, pollutant) query (used only by the dead
latest_per_station branch of list_measurements, and by the stations_wkt
CTE up to key-group order). -/
def latestOrd (a b : MeasRow) : Prop :=
  a.station_id < b.station_id ∨
    (a.station_id = b.station_id ∧
      (a.pollutant < b.pollutant ∨ (a.pollutant = b.pollutant ∧ b.ts ≤ a.ts)))

instance : DecidableRel latestOrd := fun _ _ => by unfold latestOrd; infer_instance

/-- First-occurrence deduplication by key with an accumulator of keys
already seen.  Applied to a list sorted by ts descending this is the
semantics of DISTINCT ON (key) ... ORDER BY key, ts DESC: per key, the row
of maximum ts is kept (group order differs from Postgres output order,
which no downstream consumer depends on). -/
def distinctOnAux {α κ : Type} [DecidableEq κ] (key : α → κ) : List κ → List α → List α
  | _, [] => []
  | seen, x :: xs =>
    if key x ∈ seen then distinctOnAux key seen xs
    else x :: distinctOnAux key (key x :: seen) xs

/-- DISTINCT ON (key): keep the first row of each key. -/
def distinctOnKey {α κ : Type} [DecidableEq κ] (key : α → κ) (l : List α) : List α :=
  distinctOnAux key [] l

/-- The row set of the plain (non-latest) measurements statement of
main.py lines 108-121: WHERE filters, ORDER BY ts DESC,
LIMIT limit OFFSET offset. -/
def plainQueryRows (db : List MeasRow) (station_id country pollutant : Option String)
    (limit offset : Nat) : List MeasRow :=
  (((db.filter (rowMatches station_id country pollutant)).insertionSort tsGe).drop offset).take limit

/-- The row set of the DISTINCT ON (station_id, pollutant) statement built
(but never executed) by main.py lines 95-106. -/
def latestQueryRows (db : List MeasRow) (station_id country pollutant : Option String)
    (limit offset : Nat) : List MeasRow :=
  ((distinctOnKey (fun m => (m.station_id, m.pollutant))
      ((db.filter (rowMatches station_id country pollutant)).insertionSort latestOrd)).drop
        offset).take limit

/-- The query statement chosen inside list_measurements, as a value. -/
inductive MeasQuery where
  | plain (station_id country pollutant : Option String) (limit offset : Nat)
  | latestDistinct (station_id country pollutant : Option String) (limit offset : Nat)
deriving DecidableEq, Repr

/-- Execution of either measurements statement against the datastore. -/
def runMeasQuery (db : List MeasRow) : MeasQuery → List MeasRow
  | .plain sid c p lim off => plainQueryRows db sid c p lim off
  | .latestDistinct sid c p lim off => latestQueryRows db sid c p lim off

/-- The list_measurements handler of main.py lines 69-144.  The statement
is first chosen by the latest_per_station branch (lines 94-114) and then
unconditionally reassigned to the plain statement (lines 115-121) before
execution, exactly as in the source. -/
def list_measurements (db : List MeasRow) (limit offset : Nat)
    (station_id country pollutant : Option String) (latest_per_station : Bool) :
    List MeasRow :=
  let q := if latest_per_station then
      MeasQuery.latestDistinct station_id country pollutant limit offset
    else MeasQuery.plain station_id country pollutant limit offset
  let q := MeasQuery.plain station_id country pollutant limit offset
  runMeasQuery db q

/-- The WHERE clause text built by list_measurements lines 81-93. -/
def measurementsWhereClause (station_id country pollutant : Option String) : String :=
  let filters : List String :=
    (if strPresent station_id then ["station_id = %(station_id)s"] else []) ++
      (if strPresent country then ["country = %(country)s"] else []) ++
        (if strPresent pollutant then ["pollutant = %(pollutant)s"] else [])
  if filters.isEmpty then "" else "WHERE " ++ String.intercalate " AND " filters

/-- The SQL text of the latest_per_station branch (main.py lines 95-106). -/
def latestSqlText (where_clause : String) : String :=
  "\n            WITH filtered AS (\n                SELECT station_id, pollutant, value, unit, city, location_name, lat, lon, country, ts, source\n                FROM measurements\n                " ++
    where_clause ++
    "\n            )\n            SELECT DISTINCT ON (station_id, pollutant)\n                station_id, pollutant, value, unit, city, location_name, lat, lon, country, ts, source\n            FROM filtered\n            ORDER BY station_id, pollutant, ts DESC\n            LIMIT %(limit)s OFFSET %(offset)s;\n        "

/-- The SQL text of the plain branch (main.py lines 108-114; identical
text is also produced by the unconditional assignment at lines 115-121 up
to leading indentation, which is immaterial to the statement). -/
def plainSqlText (where_clause : String) : String :=
  "\n        SELECT station_id, pollutant, value, unit, city, location_name, lat, lon, country, ts, source\n        FROM measurements\n        " ++
    where_clause ++
    "\n        ORDER BY ts DESC\n        LIMIT %(limit)s OFFSET %(offset)s;\n    "

/-- The SQL text that list_measurements finally executes: the conditional
choice of lines 94-114 is shadowed by the unconditional assignment of
lines 115-121. -/
def list_measurements_sql (station_id country pollutant : Option String)
    (latest_per_station : Bool) : String :=
  let where_clause := measurementsWhereClause station_id country pollutant
  let sql := if latest_per_station then latestSqlText where_clause
    else plainSqlText where_clause
  let sql := plainSqlText where_clause
  sql

/-- C1: the latest_per_station flag of list_measurements is inert: for
every flag value, every filter/pagination combination and every datastore
state, the executed SQL text and the returned rows are exactly those of
the latest_per_station=false call, because the statement built in the true
branch is unconditionally overwritten by the plain non-latest statement
before execution. -/
theorem claim1_latest_flag_inert (station_id country pollutant : Option String)
    (latest_per_station : Bool) (db : List MeasRow) (limit offset : Nat) :
    list_measurements_sql station_id country pollutant latest_per_station =
        list_measurements_sql station_id country pollutant false ∧
      list_measurements db limit offset station_id country pollutant latest_per_station =
        list_measurements db limit offset station_id country pollutant false :=
  ⟨rfl, rfl⟩

/-- The WHERE predicate of the timeseries statement (main.py lines
178-180): exact station_id and pollutant match and ts at least since. -/
def timeseriesMatch (station_id pollutant : String) (since : Int) (m : MeasRow) : Bool :=
  m.station_id == station_id && (m.pollutant == pollutant && decide (since ≤ m.ts))

/-- Row-to-TimePoint mapping of main.py lines 191-204. -/
def toTimePoint (m : MeasRow) : TimePoint :=
  ⟨m.station_id, m.pollutant, m.value, m.unit, m.country, m.city, m.location_name, m.ts, m.source⟩

/-- The measurements_timeseries handler of main.py lines 147-204, with the
current instant passed explicitly: since = now - hours (3600 seconds per
hour), rows selected by exact station/pollutant and ts at least since,
ORDER BY ts ascending; the empty result raises HTTP 404 with the fixed
detail message, otherwise the rows are returned as TimePoints. -/
def measurements_timeseries (db : List MeasRow) (station_id pollutant : String)
    (hours : Int) (now : Int) : Except HttpError (List TimePoint) :=
  let since := now - hours * 3600
  let rows := (db.filter (timeseriesMatch station_id pollutant since)).insertionSort tsLe
  if rows.isEmpty then
    .error ⟨404, "No measurements for given station/pollutant"⟩
  else
    .ok (rows.map toTimePoint)

/-- The insertion sort of a list is nil exactly when the list is nil. -/
theorem insertionSort_eq_nil_iff (r : MeasRow → MeasRow → Prop) [DecidableRel r]
    (l : List MeasRow) : l.insertionSort r = [] ↔ l = [] := by
  constructor
  · intro h
    have hperm := List.perm_insertionSort r l
    rw [h] at hperm
    exact (hperm.symm).eq_nil
  · intro h
    rw [h]
    rfl

/-- C2: measurements_timeseries fails with a 404 NotFound error carrying
the message "No measurements for given station/pollutant" exactly when the
query over the datastore yields zero matching rows, and a successful
result is never the empty list. -/
theorem claim2_timeseries_404_iff_empty (db : List MeasRow) (station_id pollutant : String)
    (hours now : Int) :
    (measurements_timeseries db station_id pollutant hours now =
        .error ⟨404, "No measurements for given station/pollutant"⟩ ↔
      db.filter (timeseriesMatch station_id pollutant (now - hours * 3600)) = []) ∧
    ∀ l, measurements_timeseries db station_id pollutant hours now = .ok l → l ≠ [] := by
  have hnil := insertionSort_eq_nil_iff tsLe
    (db.filter (timeseriesMatch station_id pollutant (now - hours * 3600)))
  constructor
  · unfold measurements_timeseries
    by_cases hF : db.filter (timeseriesMatch station_id pollutant (now - hours * 3600)) = []
    · simp [hF]
    · have hrows : (db.filter
          (timeseriesMatch station_id pollutant (now - hours * 3600))).insertionSort tsLe ≠ [] :=
        fun h => hF (hnil.mp h)
      simp [List.isEmpty_iff, hrows, hF]
  · intro l hl
    unfold measurements_timeseries at hl
    by_cases hF : db.filter (timeseriesMatch station_id pollutant (now - hours * 3600)) = []
    · simp [hF] at hl
    · have hrows : (db.filter
          (timeseriesMatch station_id pollutant (now - hours * 3600))).insertionSort tsLe ≠ [] :=
        fun h => hF (hnil.mp h)
      simp [List.isEmpty_iff, hrows] at hl
      intro hcon
      rw [hcon] at hl
      exact hrows (List.map_eq_nil_iff.mp hl)

/-- A one-row datastore making the timeseries query succeed. -/
def exSingleRow : MeasRow :=
  ⟨"NL01491", "pm25", some 12, some "ug_m3", some "Amsterdam", none, some 52, some 4,
    some "NL", -3600, some "openaq"⟩

/-- Witness for C2 at a concrete input: on a one-row datastore the call
succeeds and the successful payload is a nonempty list. -/
theorem claim2_witness : (List.map toTimePoint ([exSingleRow].insertionSort tsLe)) ≠ [] :=
  (claim2_timeseries_404_iff_empty [exSingleRow] "NL01491" "pm25" 24 0).2
    (List.map toTimePoint ([exSingleRow].insertionSort tsLe)) rfl

/-- C3: every TimePoint returned by a successful timeseries call has the
requested station_id and pollutant and a timestamp no older than
now - hours, and the returned list is sorted by timestamp ascending. -/
theorem claim3_timeseries_window_sorted (db : List MeasRow) (station_id pollutant : String)
    (hours now : Int) (l : List TimePoint)
    (h : measurements_timeseries db station_id pollutant hours now = .ok l) :
    (∀ tp ∈ l, tp.station_id = station_id ∧ tp.pollutant = pollutant ∧
        now - hours * 3600 ≤ tp.timestamp) ∧
      l.Sorted (fun a b => a.timestamp ≤ b.timestamp) := by
  unfold measurements_timeseries at h
  by_cases hE : ((db.filter
      (timeseriesMatch station_id pollutant (now - hours * 3600))).insertionSort tsLe).isEmpty
  · rw [if_pos hE] at h
    exact absurd h (by simp)
  · rw [if_neg hE] at h
    have hl : l = ((db.filter
        (timeseriesMatch station_id pollutant (now - hours * 3600))).insertionSort tsLe).map
          toTimePoint := by
      cases h
      rfl
    subst hl
    constructor
    · intro tp htp
      obtain ⟨m, hm, hmap⟩ := List.mem_map.mp htp
      rw [List.mem_insertionSort] at hm
      obtain ⟨-, hmatch⟩ := List.mem_filter.mp hm
      unfold timeseriesMatch at hmatch
      simp only [Bool.and_eq_true, beq_iff_eq, decide_eq_true_eq] at hmatch
      subst hmap
      exact ⟨hmatch.1, hmatch.2.1, hmatch.2.2⟩
    · have hs := List.sorted_insertionSort tsLe
        (db.filter (timeseriesMatch station_id pollutant (now - hours * 3600)))
      exact hs.map toTimePoint (fun a b hab => hab)

/-- The three rows of the worked example in the spec, at instants
now - 1h, now - 5h and now - 30h with now = 0. -/
def exRowH1 : MeasRow :=
  ⟨"NL01491", "pm25", some 12, some "ug_m3", some "Amsterdam", none, some 52, some 4,
    some "NL", -3600, some "openaq"⟩

/-- The example row at now - 5h. -/
def exRowH5 : MeasRow :=
  ⟨"NL01491", "pm25", some 9, some "ug_m3", some "Amsterdam", none, some 52, some 4,
    some "NL", -18000, some "openaq"⟩

/-- The example row at now - 30h. -/
def exRowH30 : MeasRow :=
  ⟨"NL01491", "pm25", some 15, some "ug_m3", some "Amsterdam", none, some 52, some 4,
    some "NL", -108000, some "openaq"⟩

/-- Witness for C3 at the spec's worked example: with rows at now - 1h,
now - 5h and now - 30h and hours = 24, exactly the now - 5h and now - 1h
rows are returned, in that order, and the window/sortedness properties
hold of that result. -/
theorem claim3_witness :
    measurements_timeseries [exRowH1, exRowH5, exRowH30] "NL01491" "pm25" 24 0 =
        .ok [toTimePoint exRowH5, toTimePoint exRowH1] ∧
      ((∀ tp ∈ [toTimePoint exRowH5, toTimePoint exRowH1],
          tp.station_id = "NL01491" ∧ tp.pollutant = "pm25" ∧
            (0 : Int) - 24 * 3600 ≤ tp.timestamp) ∧
        List.Sorted (fun a b => a.timestamp ≤ b.timestamp)
          [toTimePoint exRowH5, toTimePoint exRowH1]) :=
  ⟨rfl, claim3_timeseries_window_sorted [exRowH1, exRowH5, exRowH30] "NL01491" "pm25"
    24 0 [toTimePoint exRowH5, toTimePoint exRowH1] rfl⟩

/-- A field-level request validation error (the field location and a
message), as surfaced by the framework for out-of-range query
parameters. -/
structure ValidationError where
  loc : String
  msg : String
deriving DecidableEq, Repr

/-- Validation of the limit/offset query parameters of /measurements,
modelling the framework enforcement of the declarations
Query(100, ge=1, le=500) and Query(0, ge=0) at main.py lines 71-72: an
omitted parameter takes its default, an out-of-range value is rejected
with the offending field named, before the handler body (and hence any
datastore query) runs. -/
def validate_list_measurements_params (limit offset : Option Int) :
    Except ValidationError (Int × Int) :=
  let l := limit.getD 100
  let o := offset.getD 0
  if l < 1 then .error ⟨"limit", "Input should be greater than or equal to 1"⟩
  else if 500 < l then .error ⟨"limit", "Input should be less than or equal to 500"⟩
  else if o < 0 then .error ⟨"offset", "Input should be greater than or equal to 0"⟩
  else .ok (l, o)

/-- Validation of the hours query parameter of /measurements/timeseries,
modelling the framework enforcement of Query(24, ge=1, le=168) at main.py
lines 151-156. -/
def validate_timeseries_params (hours : Option Int) : Except ValidationError Int :=
  let h := hours.getD 24
  if h < 1 then .error ⟨"hours", "Input should be greater than or equal to 1"⟩
  else if 168 < h then .error ⟨"hours", "Input should be less than or equal to 168"⟩
  else .ok h

/-- The /measurements route: parameter validation followed by the
list_measurements handler. -/
def measurements_endpoint (db : List MeasRow) (limit offset : Option Int)
    (station_id country pollutant : Option String) (latest_per_station : Bool) :
    Except ValidationError (List MeasRow) :=
  match validate_list_measurements_params limit offset with
  | .error e => .error e
  | .ok (l, o) =>
    .ok (list_measurements db l.toNat o.toNat station_id country pollutant latest_per_station)

/-- The /measurements/timeseries route: parameter validation followed by
the measurements_timeseries handler (whose own 404 is the inner
Except). -/
def timeseries_endpoint (db : List MeasRow) (station_id pollutant : String)
    (hours : Option Int) (now : Int) :
    Except ValidationError (Except HttpError (List TimePoint)) :=
  match validate_timeseries_params hours with
  | .error e => .error e
  | .ok h => .ok (measurements_timeseries db station_id pollutant h now)

/-- C8: a /measurements request with limit outside [1,500] or offset < 0,
and a /measurements/timeseries request with hours outside [1,168], is
rejected as a client validation error naming the offending field, and the
response is then independent of the datastore state (no query result can
influence it); omitted limit defaults to 100, omitted offset to 0 and
omitted hours to 24. -/
theorem claim8_validation (limit offset hours : Option Int) :
    ((¬(1 ≤ limit.getD 100 ∧ limit.getD 100 ≤ 500) ∨ offset.getD 0 < 0) →
      (∃ e : ValidationError, validate_list_measurements_params limit offset = .error e ∧
          (e.loc = "limit" ∨ e.loc = "offset")) ∧
        ∀ db1 db2 station_id country pollutant latest_per_station,
          measurements_endpoint db1 limit offset station_id country pollutant
              latest_per_station =
            measurements_endpoint db2 limit offset station_id country pollutant
              latest_per_station) ∧
    (¬(1 ≤ hours.getD 24 ∧ hours.getD 24 ≤ 168) →
      (∃ e : ValidationError, validate_timeseries_params hours = .error e ∧ e.loc = "hours") ∧
        ∀ db1 db2 station_id pollutant now1 now2,
          timeseries_endpoint db1 station_id pollutant hours now1 =
            timeseries_endpoint db2 station_id pollutant hours now2) ∧
    validate_list_measurements_params none none = .ok (100, 0) ∧
    validate_timeseries_params none = .ok 24 := by
  refine ⟨?_, ?_, rfl, rfl⟩
  · intro hbad
    have hout : ∃ e : ValidationError, validate_list_measurements_params limit offset = .error e ∧
        (e.loc = "limit" ∨ e.loc = "offset") := by
      unfold validate_list_measurements_params
      by_cases h1 : limit.getD 100 < 1
      · exact ⟨_, by rw [if_pos h1], Or.inl rfl⟩
      · by_cases h2 : 500 < limit.getD 100
        · exact ⟨_, by rw [if_neg h1, if_pos h2], Or.inl rfl⟩
        · have h3 : offset.getD 0 < 0 := by omega
          exact ⟨_, by rw [if_neg h1, if_neg h2, if_pos h3], Or.inr rfl⟩
    obtain ⟨e, he, hloc⟩ := hout
    refine ⟨⟨e, he, hloc⟩, ?_⟩
    intro db1 db2 station_id country pollutant latest_per_station
    unfold measurements_endpoint
    rw [he]
  · intro hbad
    have hout : ∃ e : ValidationError, validate_timeseries_params hours = .error e ∧
        e.loc = "hours" := by
      unfold validate_timeseries_params
      by_cases h1 : hours.getD 24 < 1
      · exact ⟨_, by rw [if_pos h1], rfl⟩
      · have h2 : 168 < hours.getD 24 := by omega
        exact ⟨_, by rw [if_neg h1, if_pos h2], rfl⟩
    obtain ⟨e, he, hloc⟩ := hout
    refine ⟨⟨e, he, hloc⟩, ?_⟩
    intro db1 db2 station_id pollutant now1 now2
    unfold timeseries_endpoint
    rw [he]

/-- Witness for C8 at concrete out-of-range inputs: limit = 501 is
rejected naming limit or offset, and hours = 0 is rejected naming
hours. -/
theorem claim8_witness :
    (∃ e : ValidationError, validate_list_measurements_params (some 501) (some 0) = .error e ∧
        (e.loc = "limit" ∨ e.loc = "offset")) ∧
      ∃ e : ValidationError, validate_timeseries_params (some 0) = .error e ∧ e.loc = "hours" :=
  ⟨((claim8_validation (some 501) (some 0) (some 0)).1 (by decide)).1,
    ((claim8_validation (some 501) (some 0) (some 0)).2.1 (by decide)).1⟩

/-- Every row kept by first-occurrence deduplication is a row of the
input. -/
theorem mem_of_mem_distinctOnAux {α κ : Type} [DecidableEq κ] (key : α → κ) :
    ∀ (seen : List κ) (l : List α) (x : α), x ∈ distinctOnAux key seen l → x ∈ l := by
  intro seen l
  induction l generalizing seen with
  | nil => intro x hx; simp [distinctOnAux] at hx
  | cons a l ih =>
    intro x hx
    by_cases h : key a ∈ seen
    · simp only [distinctOnAux, if_pos h] at hx
      exact List.mem_cons_of_mem a (ih seen x hx)
    · simp only [distinctOnAux, if_neg h] at hx
      rcases List.mem_cons.mp hx with rfl | hx2
      · exact List.mem_cons_self x l
      · exact List.mem_cons_of_mem a (ih _ x hx2)

/-- The key of a kept row is never among the keys already seen. -/
theorem distinctOnAux_key_notin {α κ : Type} [DecidableEq κ] (key : α → κ) :
    ∀ (seen : List κ) (l : List α) (x : α), x ∈ distinctOnAux key seen l → key x ∉ seen := by
  intro seen l
  induction l generalizing seen with
  | nil => intro x hx; simp [distinctOnAux] at hx
  | cons a l ih =>
    intro x hx
    by_cases h : key a ∈ seen
    · simp only [distinctOnAux, if_pos h] at hx
      exact ih seen x hx
    · simp only [distinctOnAux, if_neg h] at hx
      rcases List.mem_cons.mp hx with rfl | hx2
      · exact h
      · intro hcon
        exact ih (key a :: seen) x hx2 (List.mem_cons_of_mem _ hcon)

/-- Deduplicated rows have pairwise distinct keys. -/
theorem pairwise_key_distinctOnAux {α κ : Type} [DecidableEq κ] (key : α → κ) :
    ∀ (seen : List κ) (l : List α),
      List.Pairwise (fun a b => key a ≠ key b) (distinctOnAux key seen l) := by
  intro seen l
  induction l generalizing seen with
  | nil => simp [distinctOnAux]
  | cons a l ih =>
    by_cases h : key a ∈ seen
    · simp only [distinctOnAux, if_pos h]
      exact ih seen
    · simp only [distinctOnAux, if_neg h]
      refine List.Pairwise.cons ?_ (ih _)
      intro b hb heq
      exact distinctOnAux_key_notin key (key a :: seen) l b hb
        (heq ▸ List.mem_cons_self (key a) seen)

/-- Every unseen key with a row in the input still has a row after
first-occurrence deduplication. -/
theorem exists_key_distinctOnAux {α κ : Type} [DecidableEq κ] (key : α → κ) :
    ∀ (seen : List κ) (l : List α) (k : κ), k ∉ seen → (∃ a ∈ l, key a = k) →
      ∃ a ∈ distinctOnAux key seen l, key a = k := by
  intro seen l
  induction l generalizing seen with
  | nil => intro k _ h; simp at h
  | cons a l ih =>
    intro k hk h
    by_cases hmem : key a ∈ seen
    · simp only [distinctOnAux, if_pos hmem]
      obtain ⟨b, hb, hbk⟩ := h
      rcases List.mem_cons.mp hb with rfl | hb2
      · exact absurd (hbk ▸ hmem) hk
      · exact ih seen k hk ⟨b, hb2, hbk⟩
    · simp only [distinctOnAux, if_neg hmem]
      by_cases hak : key a = k
      · exact ⟨a, List.mem_cons_self a _, hak⟩
      · obtain ⟨b, hb, hbk⟩ := h
        rcases List.mem_cons.mp hb with rfl | hb2
        · exact absurd hbk hak
        · have hk2 : k ∉ key a :: seen := by
            intro hcon
            rcases List.mem_cons.mp hcon with h1 | h2
            · exact hak h1.symm
            · exact hk h2
          obtain ⟨c, hc, hck⟩ := ih (key a :: seen) k hk2 ⟨b, hb2, hbk⟩
          exact ⟨c, List.mem_cons_of_mem a hc, hck⟩

/-- On a list sorted under r, a kept row is maximal under r among all
input rows of its key (it is the first of its key class). -/
theorem distinctOnAux_max {α κ : Type} [DecidableEq κ] (key : α → κ) {r : α → α → Prop} :
    ∀ (seen : List κ) (l : List α), List.Pairwise r l →
      ∀ x ∈ distinctOnAux key seen l, ∀ y ∈ l, key y = key x → y = x ∨ r x y := by
  intro seen l
  induction l generalizing seen with
  | nil => intro _ x hx; simp [distinctOnAux] at hx
  | cons a l ih =>
    intro hp x hx y hy hkey
    have hpa : ∀ w ∈ l, r a w := (List.pairwise_cons.mp hp).1
    have hpl : List.Pairwise r l := (List.pairwise_cons.mp hp).2
    by_cases hmem : key a ∈ seen
    · simp only [distinctOnAux, if_pos hmem] at hx
      have hxnot := distinctOnAux_key_notin key seen l x hx
      rcases List.mem_cons.mp hy with rfl | hy2
      · exact absurd (hkey ▸ hmem) hxnot
      · exact ih seen hpl x hx y hy2 hkey
    · simp only [distinctOnAux, if_neg hmem] at hx
      rcases List.mem_cons.mp hx with rfl | hx2
      · rcases List.mem_cons.mp hy with rfl | hy2
        · exact Or.inl rfl
        · exact Or.inr (hpa y hy2)
      · have hxnot := distinctOnAux_key_notin key (key a :: seen) l x hx2
        rcases List.mem_cons.mp hy with rfl | hy2
        · have hxin : key x ∈ key y :: seen := by
            rw [← hkey]
            exact List.mem_cons_self _ _
          exact absurd hxin hxnot
        · exact ih (key a :: seen) hpl x hx2 y hy2 hkey

/-- The pollutant restriction of the latest_meas CTE of /stations and
/stations_wkt (main.py lines 211-216 and 283-288): applied only when the
pollutant parameter is truthy. -/
def measPollMatch (pollutant : Option String) (m : MeasRow) : Bool :=
  if strPresent pollutant then m.pollutant == pollutant.getD "" else true

/-- The station restriction of /stations and /stations_wkt (main.py lines
218-222 and 290-294): non-null lat and lon, plus the country equality
filter when the country parameter is truthy. -/
def stationMatch (country : Option String) (s : StationRow) : Bool :=
  s.lat.isSome && (s.lon.isSome &&
    (if strPresent country then s.country == some (country.getD "") else true))

/-- A GeoJSON Feature as assembled by list_stations (main.py lines
252-271): geometry coordinates [lon, lat] taken as-is from the joined row
(hence Option-valued), properties from station metadata and the joined
latest measurement. -/
structure Feature where
  lon : Option Int
  lat : Option Int
  station_id : String
  source : Option String
  country : Option String
  city : Option String
  location_name : Option String
  pollutant : String
  value : Option Int
  unit : Option String
  timestamp : Int
deriving DecidableEq, Repr

/-- Row-to-Feature mapping of main.py lines 252-271. -/
def mkFeature (s : StationRow) (m : MeasRow) : Feature :=
  ⟨s.lon, s.lat, s.station_id, s.source, s.country, s.city, s.location_name,
    m.pollutant, m.value, m.unit, m.ts⟩

/-- The latest_meas CTE of /stations: DISTINCT ON (station_id) over the
optionally pollutant-filtered measurements, ranked by ts descending. -/
def latestPerStation (meas : List MeasRow) (pollutant : Option String) : List MeasRow :=
  distinctOnKey (fun m => m.station_id)
    ((meas.filter (measPollMatch pollutant)).insertionSort tsGe)

/-- The list_stations handler of main.py lines 207-272: the feature list
of the returned FeatureCollection (the constant FeatureCollection/Feature/
Point type tags are omitted from the model). -/
def list_stations (stations : List StationRow) (meas : List MeasRow)
    (country pollutant : Option String) : List Feature :=
  let lm := latestPerStation meas pollutant
  (stations.filter (stationMatch country)).flatMap
    (fun s => (lm.filter (fun m => m.station_id == s.station_id)).map (mkFeature s))

/-- One aggregated measurement entry of a /stations_wkt station object. -/
structure WktMeasurement where
  pollutant : String
  value : Option Int
  unit : Option String
  timestamp : Int
deriving DecidableEq, Repr

/-- A /stations_wkt station object (main.py lines 348-358). -/
structure WktStation where
  wkt : String
  station_id : String
  source : Option String
  country : Option String
  city : Option String
  location_name : Option String
  measurements : List WktMeasurement
deriving DecidableEq, Repr

/-- The latest_meas CTE of /stations_wkt: DISTINCT ON
(station_id, pollutant) over the optionally pollutant-filtered
measurements, ranked by ts descending. -/
def latestPerStationPollutant (meas : List MeasRow) (pollutant : Option String) :
    List MeasRow :=
  distinctOnKey (fun m => (m.station_id, m.pollutant))
    ((meas.filter (measPollMatch pollutant)).insertionSort tsGe)

/-- Aggregated-entry mapping of main.py lines 336-347. -/
def toWktMeasurement (m : MeasRow) : WktMeasurement :=
  ⟨m.pollutant, m.value, m.unit, m.ts⟩

/-- One output row of /stations_wkt for one station: the GROUP BY of the
join aggregates the station's latest-per-pollutant rows into a list (a
station with no joined rows produces no group), and the defensive
null-coordinate guard of main.py lines 330-333 is applied before the WKT
point text POINT(lon lat) is rendered. -/
def wktForStation (lm : List MeasRow) (s : StationRow) : Option WktStation :=
  if (lm.filter (fun m => m.station_id == s.station_id)).isEmpty then none
  else
    match s.lon, s.lat with
    | some lon, some lat =>
      some ⟨"POINT(" ++ toString lon ++ " " ++ toString lat ++ ")",
        s.station_id, s.source, s.country, s.city, s.location_name,
        (lm.filter (fun m => m.station_id == s.station_id)).map toWktMeasurement⟩
    | _, _ => none

/-- The list_stations_wkt handler of main.py lines 275-359: stations
joined to their latest-per-pollutant measurements, grouped per station. -/
def list_stations_wkt (stations : List StationRow) (meas : List MeasRow)
    (country pollutant : Option String) : List WktStation :=
  (stations.filter (stationMatch country)).filterMap
    (wktForStation (latestPerStationPollutant meas pollutant))

/-- C4: a latest_per_station=false call to list_measurements returns a
list sorted by timestamp descending, of length at most limit, all of whose
rows match the conjunction of the supplied equality filters, and the list
is a limit-sized window, after skipping the first offset rows, of a
timestamp-descending ordering of the full match set. -/
theorem claim4_plain_measurements_window (db : List MeasRow) (limit offset : Nat)
    (station_id country pollutant : Option String) :
    List.Sorted tsGe (list_measurements db limit offset station_id country pollutant false) ∧
      (list_measurements db limit offset station_id country pollutant false).length ≤ limit ∧
      (∀ r ∈ list_measurements db limit offset station_id country pollutant false,
        rowMatches station_id country pollutant r = true) ∧
      ∃ ordered : List MeasRow,
        ordered.Perm (db.filter (rowMatches station_id country pollutant)) ∧
          List.Sorted tsGe ordered ∧
          list_measurements db limit offset station_id country pollutant false =
            (ordered.drop offset).take limit := by
  have hdef : list_measurements db limit offset station_id country pollutant false =
      (((db.filter (rowMatches station_id country pollutant)).insertionSort tsGe).drop
        offset).take limit := rfl
  have hsorted : List.Sorted tsGe
      ((db.filter (rowMatches station_id country pollutant)).insertionSort tsGe) :=
    List.sorted_insertionSort tsGe _
  have hsub : List.Sublist
      ((((db.filter (rowMatches station_id country pollutant)).insertionSort
        tsGe).drop offset).take limit)
      ((db.filter (rowMatches station_id country pollutant)).insertionSort tsGe) :=
    (List.take_sublist _ _).trans (List.drop_sublist _ _)
  refine ⟨?_, ?_, ?_, (db.filter (rowMatches station_id country pollutant)).insertionSort tsGe,
    List.perm_insertionSort tsGe _, hsorted, hdef⟩
  · rw [hdef]
    exact hsorted.sublist hsub
  · rw [hdef]
    exact List.length_take_le _ _
  · intro r hr
    rw [hdef] at hr
    have hr2 : r ∈ (db.filter (rowMatches station_id country pollutant)).insertionSort tsGe :=
      hsub.subset hr
    exact (List.mem_filter.mp ((List.mem_insertionSort tsGe).mp hr2)).2

/-- C7: no Feature returned by list_stations has a null coordinate, and
both geospatial endpoints are insensitive to stations with a null lat or
lon: removing all such stations from the stations table leaves the output
of list_stations and of list_stations_wkt unchanged. -/
theorem claim7_null_coords_excluded (stations : List StationRow) (meas : List MeasRow)
    (country pollutant : Option String) :
    (∀ f ∈ list_stations stations meas country pollutant, f.lat.isSome ∧ f.lon.isSome) ∧
      list_stations stations meas country pollutant =
        list_stations (stations.filter (fun s => s.lat.isSome && s.lon.isSome)) meas
          country pollutant ∧
      list_stations_wkt stations meas country pollutant =
        list_stations_wkt (stations.filter (fun s => s.lat.isSome && s.lon.isSome)) meas
          country pollutant := by
  have hfilter :
      (stations.filter (fun s => s.lat.isSome && s.lon.isSome)).filter
          (stationMatch country) =
        stations.filter (stationMatch country) := by
    rw [List.filter_filter]
    congr 1
    funext s
    unfold stationMatch
    cases hla : s.lat.isSome <;> cases hlo : s.lon.isSome <;> simp
  refine ⟨?_, ?_, ?_⟩
  · intro f hf
    unfold list_stations at hf
    obtain ⟨s, hs, hf2⟩ := List.mem_flatMap.mp hf
    obtain ⟨m, _, hfm⟩ := List.mem_map.mp hf2
    have hmatch := (List.mem_filter.mp hs).2
    unfold stationMatch at hmatch
    simp only [Bool.and_eq_true] at hmatch
    subst hfm
    exact ⟨hmatch.1, hmatch.2.1⟩
  · unfold list_stations
    rw [hfilter]
  · unfold list_stations_wkt
    rw [hfilter]

/-- A station with coordinates, used by the concrete station-endpoint
witnesses. -/
def exStationA : StationRow :=
  ⟨"A", some "openaq", some "NL", some "Amsterdam", some "loc", some 52, some 4⟩

/-- Measurement at station A, pollutant pm25, instant 10. -/
def exMRowPm25T10 : MeasRow :=
  ⟨"A", "pm25", some 11, some "ug_m3", some "Amsterdam", some "loc", some 52, some 4,
    some "NL", 10, some "openaq"⟩

/-- Measurement at station A, pollutant no2, instant 7. -/
def exMRowNo2T7 : MeasRow :=
  ⟨"A", "no2", some 21, some "ug_m3", some "Amsterdam", some "loc", some 52, some 4,
    some "NL", 7, some "openaq"⟩

/-- Measurement at station A, pollutant pm25, instant 5. -/
def exMRowPm25T5 : MeasRow :=
  ⟨"A", "pm25", some 9, some "ug_m3", some "Amsterdam", some "loc", some 52, some 4,
    some "NL", 5, some "openaq"⟩

/-- The three-row measurements table of the station-endpoint witnesses:
two pollutants at one station, pm25 twice. -/
def exMeasC : List MeasRow := [exMRowPm25T10, exMRowNo2T7, exMRowPm25T5]

/-- Witness for C7 at a concrete input: the feature produced for station A
has both coordinates present. -/
theorem claim7_witness :
    (mkFeature exStationA exMRowPm25T10).lat.isSome ∧
      (mkFeature exStationA exMRowPm25T10).lon.isSome :=
  (claim7_null_coords_excluded [exStationA] exMeasC none none).1
    (mkFeature exStationA exMRowPm25T10) (by decide)

/-- Witness for C4 at a concrete input: with limit 2 and offset 1 over the
three-row table the result holds at most 2 rows, and the no2 row — a
member of the result — matches the (empty) filter conjunction. -/
theorem claim4_witness :
    (list_measurements exMeasC 2 1 none none none false).length ≤ 2 ∧
      rowMatches none none none exMRowNo2T7 = true :=
  ⟨(claim4_plain_measurements_window exMeasC 2 1 none none none).2.1,
    (claim4_plain_measurements_window exMeasC 2 1 none none none).2.2.1 exMRowNo2T7
      (by decide)⟩

/-- A list whose elements have pairwise distinct keys keeps at most one
element under any filter that tests the key against a fixed value. -/
theorem length_filter_key_le_one {α κ : Type} [DecidableEq κ] {key : α → κ} {l : List α}
    (h : List.Pairwise (fun a b => key a ≠ key b) l) (k : κ) (p : α → Bool)
    (hp : ∀ a, p a = true ↔ key a = k) : (l.filter p).length ≤ 1 := by
  induction l with
  | nil => simp
  | cons a t ih =>
    have hpa := (List.pairwise_cons.mp h).1
    have hpt := (List.pairwise_cons.mp h).2
    by_cases ha : p a = true
    · rw [List.filter_cons_of_pos ha]
      have htnil : t.filter p = [] := by
        rw [List.filter_eq_nil_iff]
        intro b hb hpb
        exact hpa b hb (((hp a).mp ha).trans ((hp b).mp hpb).symm)
      rw [htnil]
      simp
    · rw [List.filter_cons_of_neg (by simpa using ha)]
      exact ih hpt

/-- Per-station feature count of the /stations join: with pairwise
distinct station keys in the latest-measurement rows and pairwise distinct
station ids in the stations table, any fixed station id collects at most
one feature. -/
theorem flatMap_features_count_le_one {lm : List MeasRow}
    (hkeys : List.Pairwise (fun a b : MeasRow => a.station_id ≠ b.station_id) lm) :
    ∀ sts : List StationRow, (sts.map (fun s => s.station_id)).Nodup → ∀ sid : String,
      ((sts.flatMap (fun s =>
          (lm.filter (fun m => m.station_id == s.station_id)).map (mkFeature s))).filter
        (fun f => f.station_id == sid)).length ≤ 1 := by
  intro sts
  induction sts with
  | nil => intro _ sid; simp
  | cons s rest ih =>
    intro hnd sid
    simp only [List.map_cons, List.nodup_cons] at hnd
    obtain ⟨hnotin, hndr⟩ := hnd
    rw [List.flatMap_cons, List.filter_append, List.length_append]
    by_cases hsid : s.station_id = sid
    · have hrest0 : ((rest.flatMap (fun s =>
          (lm.filter (fun m => m.station_id == s.station_id)).map (mkFeature s))).filter
            (fun f => f.station_id == sid)) = [] := by
        rw [List.filter_eq_nil_iff]
        intro f hf
        obtain ⟨s2, hs2, hf2⟩ := List.mem_flatMap.mp hf
        obtain ⟨m, _, hfm⟩ := List.mem_map.mp hf2
        subst hfm
        intro hcon
        have h2 : s2.station_id = sid := beq_iff_eq.mp hcon
        exact hnotin (List.mem_map.mpr ⟨s2, hs2, h2.trans hsid.symm⟩)
      have h1 : (((lm.filter (fun m => m.station_id == s.station_id)).map
          (mkFeature s)).filter (fun f => f.station_id == sid)).length ≤ 1 := by
        calc (((lm.filter (fun m => m.station_id == s.station_id)).map
              (mkFeature s)).filter (fun f => f.station_id == sid)).length
            ≤ ((lm.filter (fun m => m.station_id == s.station_id)).map
              (mkFeature s)).length := List.length_filter_le _ _
          _ = (lm.filter (fun m => m.station_id == s.station_id)).length := by
              rw [List.length_map]
          _ ≤ 1 := length_filter_key_le_one hkeys s.station_id _ (fun a => beq_iff_eq)
      rw [hrest0]
      simpa using h1
    · have hinner0 : (((lm.filter (fun m => m.station_id == s.station_id)).map
          (mkFeature s)).filter (fun f => f.station_id == sid)) = [] := by
        rw [List.filter_eq_nil_iff]
        intro f hf
        obtain ⟨m, _, hfm⟩ := List.mem_map.mp hf
        subst hfm
        intro hcon
        exact hsid (beq_iff_eq.mp hcon)
      rw [hinner0]
      simpa using ih hndr sid

/-- Claim-C6 characterization of one /stations feature: it is built from a
measurement of that station surviving the optional pollutant restriction
and of maximum timestamp among all such measurements of that station. -/
def featureLatestOk (meas : List MeasRow) (pollutant : Option String) (f : Feature) : Prop :=
  ∃ m ∈ meas, measPollMatch pollutant m = true ∧ m.station_id = f.station_id ∧
    f.pollutant = m.pollutant ∧ f.value = m.value ∧ f.unit = m.unit ∧ f.timestamp = m.ts ∧
    ∀ m2 ∈ meas, measPollMatch pollutant m2 = true → m2.station_id = f.station_id →
      m2.ts ≤ m.ts

/-- C6: under the schema invariant that station_id is a primary key of the
stations table, each station contributes at most one Feature to
/stations; with no pollutant filter that Feature carries the measurement
of overall maximum timestamp among all of the station's measurements (one
tuple, not one per pollutant), and with a pollutant filter the ranking is
restricted to that pollutant first, so every Feature carries that
pollutant. -/
theorem claim6_one_latest_feature_per_station (stations : List StationRow)
    (meas : List MeasRow) (country pollutant : Option String)
    (hnodup : (stations.map (fun s => s.station_id)).Nodup) :
    (∀ sid : String,
      ((list_stations stations meas country pollutant).filter
        (fun f => f.station_id == sid)).length ≤ 1) ∧
      (∀ f ∈ list_stations stations meas country pollutant,
        featureLatestOk meas pollutant f) ∧
      (∀ p : String, pollutant = some p → p ≠ "" →
        ∀ f ∈ list_stations stations meas country pollutant, f.pollutant = p) := by
  have hsortP : List.Pairwise tsGe
      ((meas.filter (measPollMatch pollutant)).insertionSort tsGe) :=
    List.sorted_insertionSort tsGe _
  have hkeysP : List.Pairwise (fun a b : MeasRow => a.station_id ≠ b.station_id)
      (latestPerStation meas pollutant) :=
    pairwise_key_distinctOnAux (fun m : MeasRow => m.station_id) [] _
  have hextract : ∀ f ∈ list_stations stations meas country pollutant,
      ∃ s, s ∈ stations.filter (stationMatch country) ∧
        ∃ m, m ∈ latestPerStation meas pollutant ∧ m.station_id = s.station_id ∧
          f = mkFeature s m := by
    intro f hf
    unfold list_stations at hf
    obtain ⟨s, hs, hf2⟩ := List.mem_flatMap.mp hf
    obtain ⟨m, hm, hfm⟩ := List.mem_map.mp hf2
    obtain ⟨hmlm, hmsid⟩ := List.mem_filter.mp hm
    exact ⟨s, hs, m, hmlm, beq_iff_eq.mp hmsid, hfm.symm⟩
  refine ⟨?_, ?_, ?_⟩
  · intro sid
    have hsts : ((stations.filter (stationMatch country)).map
        (fun s => s.station_id)).Nodup :=
      hnodup.sublist ((List.filter_sublist stations).map (fun s => s.station_id))
    exact flatMap_features_count_le_one hkeysP (stations.filter (stationMatch country))
      hsts sid
  · intro f hf
    obtain ⟨s, _, m, hmlm, hmsid, hfm⟩ := hextract f hf
    have hmsort : m ∈ (meas.filter (measPollMatch pollutant)).insertionSort tsGe :=
      mem_of_mem_distinctOnAux _ [] _ m hmlm
    obtain ⟨hmmeas, hmpoll⟩ :=
      List.mem_filter.mp ((List.mem_insertionSort tsGe).mp hmsort)
    subst hfm
    refine ⟨m, hmmeas, hmpoll, hmsid, rfl, rfl, rfl, rfl, ?_⟩
    intro m2 hm2 hpoll2 hsid2
    have hm2sort : m2 ∈ (meas.filter (measPollMatch pollutant)).insertionSort tsGe :=
      (List.mem_insertionSort tsGe).mpr (List.mem_filter.mpr ⟨hm2, hpoll2⟩)
    have hkeyeq : m2.station_id = m.station_id := hsid2.trans hmsid.symm
    rcases distinctOnAux_max (fun mm : MeasRow => mm.station_id) [] _ hsortP m hmlm m2
        hm2sort hkeyeq with heq | hle
    · rw [heq]
    · exact hle
  · intro p hp hne f hf
    obtain ⟨s, _, m, hmlm, _, hfm⟩ := hextract f hf
    have hmsort : m ∈ (meas.filter (measPollMatch pollutant)).insertionSort tsGe :=
      mem_of_mem_distinctOnAux _ [] _ m hmlm
    obtain ⟨_, hmpoll⟩ :=
      List.mem_filter.mp ((List.mem_insertionSort tsGe).mp hmsort)
    subst hfm
    subst hp
    have hb : (p == "") = false := by
      simp [hne]
    simp [measPollMatch, strPresent, hb] at hmpoll
    exact hmpoll

/-- Witness for C6 at a concrete input: station A with pm25 and no2
readings yields at most one feature for id A, and that feature is built
from the overall-latest measurement (pm25 at instant 10). -/
theorem claim6_witness :
    ((list_stations [exStationA] exMeasC none none).filter
        (fun f => f.station_id == "A")).length ≤ 1 ∧
      featureLatestOk exMeasC none (mkFeature exStationA exMRowPm25T10) :=
  ⟨(claim6_one_latest_feature_per_station [exStationA] exMeasC none none (by decide)).1 "A",
    (claim6_one_latest_feature_per_station [exStationA] exMeasC none none (by decide)).2.1
      (mkFeature exStationA exMRowPm25T10) (by decide)⟩

/-- Inversion of one /stations_wkt output row: the station row it was
built from has both coordinates present, and the aggregated measurement
list is exactly the station's slice of the latest-per-pollutant rows. -/
theorem wktForStation_some {lm : List MeasRow} {s : StationRow} {w : WktStation}
    (h : wktForStation lm s = some w) :
    ∃ lon lat : Int, s.lon = some lon ∧ s.lat = some lat ∧
      w.station_id = s.station_id ∧
      w.measurements =
        (lm.filter (fun m => m.station_id == s.station_id)).map toWktMeasurement := by
  unfold wktForStation at h
  by_cases hemp : (lm.filter (fun m => m.station_id == s.station_id)).isEmpty
  · rw [if_pos hemp] at h
    exact absurd h (by simp)
  · rw [if_neg hemp] at h
    rcases hlon : s.lon with _ | lon
    · rw [hlon] at h
      simp at h
    · rcases hlat : s.lat with _ | lat
      · rw [hlon, hlat] at h
        simp at h
      · rw [hlon, hlat] at h
        simp only [Option.some.injEq] at h
        exact ⟨lon, lat, rfl, rfl, by rw [← h], by rw [← h]⟩

/-- Claim-C5 characterization of one /stations_wkt object against the
measurements table: entry pollutants are pairwise distinct, an entry
exists exactly for each pollutant having data at that station, and each
entry is a measurement of its pollutant at that station of maximum
timestamp. -/
def wktStationOk (meas : List MeasRow) (w : WktStation) : Prop :=
  (w.measurements.map (fun e => e.pollutant)).Nodup ∧
  (∀ p : String, (∃ m ∈ meas, m.station_id = w.station_id ∧ m.pollutant = p) ↔
    p ∈ w.measurements.map (fun e => e.pollutant)) ∧
  ∀ e ∈ w.measurements, ∃ m ∈ meas, m.station_id = w.station_id ∧
    m.pollutant = e.pollutant ∧ m.value = e.value ∧ m.unit = e.unit ∧ m.ts = e.timestamp ∧
    ∀ m2 ∈ meas, m2.station_id = w.station_id → m2.pollutant = e.pollutant →
      m2.ts ≤ m.ts

/-- C5: with no pollutant filter, every station object returned by
list_stations_wkt aggregates one entry per pollutant having data at that
station — so a station with two distinct pollutants gets exactly two
entries — and each entry is the most recent measurement of its
pollutant at that station. -/
theorem claim5_wkt_one_entry_per_pollutant (stations : List StationRow)
    (meas : List MeasRow) (country : Option String) (w : WktStation)
    (hw : w ∈ list_stations_wkt stations meas country none) : wktStationOk meas w := by
  unfold list_stations_wkt at hw
  obtain ⟨s, _, hsw⟩ := List.mem_filterMap.mp hw
  obtain ⟨lon, lat, _, _, hwsid, hwms⟩ := wktForStation_some hsw
  have hfilt : meas.filter (measPollMatch none) = meas := by
    have heq : measPollMatch none = fun _ => true := rfl
    rw [heq, List.filter_true]
  have hL : latestPerStationPollutant meas none =
      distinctOnAux (fun m : MeasRow => (m.station_id, m.pollutant)) []
        (meas.insertionSort tsGe) := by
    unfold latestPerStationPollutant distinctOnKey
    rw [hfilt]
  have hsort : List.Pairwise tsGe (meas.insertionSort tsGe) :=
    List.sorted_insertionSort tsGe meas
  have hmem_meas : ∀ m ∈ latestPerStationPollutant meas none, m ∈ meas := by
    intro m hm
    rw [hL] at hm
    exact (List.mem_insertionSort tsGe).mp (mem_of_mem_distinctOnAux _ [] _ m hm)
  have hmsPair : List.Pairwise (fun a b : MeasRow => a.pollutant ≠ b.pollutant)
      ((latestPerStationPollutant meas none).filter
        (fun m => m.station_id == s.station_id)) := by
    have hp : List.Pairwise
        (fun a b : MeasRow => (a.station_id, a.pollutant) ≠ (b.station_id, b.pollutant))
        (latestPerStationPollutant meas none) := by
      rw [hL]
      exact pairwise_key_distinctOnAux (fun m : MeasRow => (m.station_id, m.pollutant)) [] _
    have hsub2 : List.Sublist
        ((latestPerStationPollutant meas none).filter
          (fun m => m.station_id == s.station_id))
        (latestPerStationPollutant meas none) := List.filter_sublist _
    have hp2 := hp.sublist hsub2
    refine hp2.imp_of_mem ?_
    intro a b ha hb hne heq
    have ha2 := beq_iff_eq.mp (List.mem_filter.mp ha).2
    have hb2 := beq_iff_eq.mp (List.mem_filter.mp hb).2
    exact hne (by rw [ha2, hb2, heq])
  refine ⟨?_, ?_, ?_⟩
  · rw [hwms, List.map_map]
    exact hmsPair.map _ (fun a b hab => hab)
  · intro p
    constructor
    · rintro ⟨m, hm, hmsid, hmp⟩
      have hmem : ∃ a ∈ distinctOnAux (fun m : MeasRow => (m.station_id, m.pollutant)) []
          (meas.insertionSort tsGe), (a.station_id, a.pollutant) = (w.station_id, p) := by
        refine exists_key_distinctOnAux _ [] _ (w.station_id, p) (by simp) ?_
        exact ⟨m, (List.mem_insertionSort tsGe).mpr hm, by rw [hmsid, hmp]⟩
      obtain ⟨a, haL, hak⟩ := hmem
      rw [← hL] at haL
      have hak1 : a.station_id = w.station_id := congrArg Prod.fst hak
      have hak2 : a.pollutant = p := congrArg Prod.snd hak
      rw [hwms, List.map_map]
      refine List.mem_map.mpr ⟨a, List.mem_filter.mpr ⟨haL, ?_⟩, hak2⟩
      exact beq_iff_eq.mpr (by rw [hak1, hwsid])
    · intro hp
      rw [hwms, List.map_map] at hp
      obtain ⟨a, ha, hap⟩ := List.mem_map.mp hp
      obtain ⟨haL, hasid⟩ := List.mem_filter.mp ha
      refine ⟨a, hmem_meas a haL, ?_, hap⟩
      rw [beq_iff_eq.mp hasid, ← hwsid]
  · intro e he
    rw [hwms] at he
    obtain ⟨m, hm, hme⟩ := List.mem_map.mp he
    obtain ⟨hmL, hmsid⟩ := List.mem_filter.mp hm
    subst hme
    refine ⟨m, hmem_meas m hmL, ?_, rfl, rfl, rfl, rfl, ?_⟩
    · rw [beq_iff_eq.mp hmsid, ← hwsid]
    · intro m2 hm2 hsid2 hpoll2
      have hm2sort : m2 ∈ meas.insertionSort tsGe := (List.mem_insertionSort tsGe).mpr hm2
      have hkeyeq : (m2.station_id, m2.pollutant) = (m.station_id, m.pollutant) := by
        have h1 : m2.station_id = m.station_id := by
          rw [hsid2, hwsid, ← beq_iff_eq.mp hmsid]
        have h2 : m2.pollutant = m.pollutant := hpoll2
        rw [h1, h2]
      rw [hL] at hmL
      rcases distinctOnAux_max (fun mm : MeasRow => (mm.station_id, mm.pollutant)) [] _
          hsort m hmL m2 hm2sort hkeyeq with heq | hle
      · rw [heq]
      · exact hle

/-- The station object produced for station A by the C5 witness input. -/
def exWktA : WktStation :=
  ⟨"POINT(4 52)", "A", some "openaq", some "NL", some "Amsterdam", some "loc",
    [toWktMeasurement exMRowPm25T10, toWktMeasurement exMRowNo2T7]⟩

/-- Witness for C5 at a concrete input: station A with pm25 readings at
instants 10 and 5 and one no2 reading at instant 7 yields exactly the two
entries pm25@10 and no2@7, satisfying the C5 characterization. -/
theorem claim5_witness : wktStationOk exMeasC exWktA :=
  claim5_wkt_one_entry_per_pollutant [exStationA] exMeasC none exWktA (by decide)

/-- The process-wide configuration of src/app/config.py. -/
structure Settings where
  db_host : String
  db_port : Int
  db_name : String
  db_user : String
  db_password : String
  allowed_origins : List String
deriving DecidableEq, Repr

/-- The ambient state a request handler could observe: the configuration,
the two tables reachable through the pooled connection, and the current
instant. -/
structure World where
  settings : Settings
  measurements : List MeasRow
  stations : List StationRow
  now : Int
deriving DecidableEq, Repr

/-- The /health handler (main.py lines 64-66): a constant body. -/
def health (w : World) : List (String × String) :=
  let _ := w
  [("status", "ok")]

/-- The /measurements route read against a world. -/
def measurements_route (w : World) (limit offset : Option Int)
    (station_id country pollutant : Option String) (latest_per_station : Bool) :
    Except ValidationError (List MeasRow) :=
  measurements_endpoint w.measurements limit offset station_id country pollutant
    latest_per_station

/-- The /measurements/timeseries route read against a world. -/
def timeseries_route (w : World) (station_id pollutant : String) (hours : Option Int) :
    Except ValidationError (Except HttpError (List TimePoint)) :=
  timeseries_endpoint w.measurements station_id pollutant hours w.now

/-- The /stations route read against a world. -/
def stations_route (w : World) (country pollutant : Option String) : List Feature :=
  list_stations w.stations w.measurements country pollutant

/-- The /stations_wkt route read against a world. -/
def stations_wkt_route (w : World) (country pollutant : Option String) : List WktStation :=
  list_stations_wkt w.stations w.measurements country pollutant

/-- C9: every route is a deterministic function of its parameters, the
datastore tables and (for the timeseries route) the current instant: two
worlds agreeing on those — whatever their other ambient state, such as the
configuration — produce identical responses for identical parameters, so
repeating a call against an unchanged datastore repeats the response. -/
theorem claim9_routes_deterministic (w1 w2 : World)
    (hm : w1.measurements = w2.measurements) (hs : w1.stations = w2.stations)
    (hn : w1.now = w2.now) :
    health w1 = health w2 ∧
      (∀ limit offset station_id country pollutant latest_per_station,
        measurements_route w1 limit offset station_id country pollutant latest_per_station =
          measurements_route w2 limit offset station_id country pollutant
            latest_per_station) ∧
      (∀ station_id pollutant hours,
        timeseries_route w1 station_id pollutant hours =
          timeseries_route w2 station_id pollutant hours) ∧
      (∀ country pollutant,
        stations_route w1 country pollutant = stations_route w2 country pollutant) ∧
      (∀ country pollutant,
        stations_wkt_route w1 country pollutant = stations_wkt_route w2 country pollutant) := by
  refine ⟨rfl, ?_, ?_, ?_, ?_⟩ <;> intros <;>
    simp only [measurements_route, timeseries_route, stations_route, stations_wkt_route,
      hm, hs, hn]

/-- A world with the default configuration of config.py. -/
def exWorldDefault : World :=
  ⟨⟨"postgres", 5432, "airquality", "airuser", "airpassword", ["*"]⟩,
    exMeasC, [exStationA], 0⟩

/-- The same datastore and instant under a different configuration. -/
def exWorldOther : World :=
  ⟨⟨"localhost", 5433, "testdb", "user2", "secret2", ["http://a", "http://b"]⟩,
    exMeasC, [exStationA], 0⟩

/-- Witness for C9 at concrete inputs: two worlds differing only in
configuration give the same /health and /stations responses. -/
theorem claim9_witness :
    health exWorldDefault = health exWorldOther ∧
      stations_route exWorldDefault none none = stations_route exWorldOther none none :=
  ⟨(claim9_routes_deterministic exWorldDefault exWorldOther rfl rfl rfl).1,
    (claim9_routes_deterministic exWorldDefault exWorldOther rfl rfl rfl).2.2.2.1 none none⟩

/-- C10: supplying the empty string for a string filter parameter is the
same as omitting it: the truthiness test drops the filter, for the
station_id, country and pollutant parameters of list_measurements and for
the country and pollutant parameters of list_stations and
list_stations_wkt. -/
theorem claim10_empty_string_filter_dropped (db : List MeasRow) (limit offset : Nat)
    (station_id country pollutant : Option String) (latest_per_station : Bool)
    (stations : List StationRow) (meas : List MeasRow) :
    (list_measurements db limit offset (some "") country pollutant latest_per_station =
        list_measurements db limit offset none country pollutant latest_per_station) ∧
      (list_measurements db limit offset station_id (some "") pollutant latest_per_station =
        list_measurements db limit offset station_id none pollutant latest_per_station) ∧
      (list_measurements db limit offset station_id country (some "") latest_per_station =
        list_measurements db limit offset station_id country none latest_per_station) ∧
      (list_stations stations meas (some "") pollutant =
        list_stations stations meas none pollutant) ∧
      (list_stations stations meas country (some "") =
        list_stations stations meas country none) ∧
      (list_stations_wkt stations meas (some "") pollutant =
        list_stations_wkt stations meas none pollutant) ∧
      (list_stations_wkt stations meas country (some "") =
        list_stations_wkt stations meas country none) :=
  ⟨rfl, rfl, rfl, rfl, rfl, rfl, rfl⟩

end AirQuality
